import Mathlib

/-!
Verification of the Unit 574 mechanic-invoice scanner.

Shallow embedding of `src/config.py` and `src/scanner.py`.  Text is modelled
as `List Char`; Python's case-insensitive substring tests (`a in b` after
`.lower()`) become `isSubstr` over lowered character lists.  Python float
confidence values (all weights are multiples of 0.05) are modelled in integer
hundredths, so 0.30 becomes 30; at every sum that is compared against the
0.30 threshold the IEEE-double value and the exact value lie on the same side
of the threshold, so the Bool decision is unchanged by this choice.
-/

namespace Scanner

/-- Text is a list of characters (Python `str`). -/
abbrev Str := List Char

/-- Python `str.lower()` (ASCII-relevant part). -/
def lower (s : Str) : Str := s.map Char.toLower

/-- Python substring containment `needle in hay`. -/
def isSubstr (needle hay : Str) : Bool :=
  (List.range (hay.length + 1)).any (fun i => needle.isPrefixOf (hay.drop i))

/-! ## Configuration (`src/config.py`) -/

/-- config.py: `UNIT_NUMBER = "574"`. -/
def UNIT_NUMBER : Str := ("574").toList

/-- config.py: `FULL_VIN = "3AKJHHDR7KSKE1598"`. -/
def FULL_VIN : Str := ("3AKJHHDR7KSKE1598").toList

/-- config.py: `VIN_LAST_8 = FULL_VIN[-8:]`. -/
def VIN_LAST_8 : Str := FULL_VIN.drop (FULL_VIN.length - 8)

/-- config.py: `VIN_LAST_6 = FULL_VIN[-6:]`. -/
def VIN_LAST_6 : Str := FULL_VIN.drop (FULL_VIN.length - 6)

/-- config.py: `VIN_LAST_4 = FULL_VIN[-4:]`. -/
def VIN_LAST_4 : Str := FULL_VIN.drop (FULL_VIN.length - 4)

/-- config.py: `SEARCH_TERMS` (identifier variants). -/
def SEARCH_TERMS : List Str :=
  [ FULL_VIN, VIN_LAST_8, VIN_LAST_6, VIN_LAST_4, UNIT_NUMBER
  , ("Unit ").toList ++ UNIT_NUMBER
  , ("Unit#").toList ++ UNIT_NUMBER
  , ("Unit-").toList ++ UNIT_NUMBER
  , ("Truck ").toList ++ UNIT_NUMBER
  , ("Truck#").toList ++ UNIT_NUMBER
  , ("Unit: ").toList ++ UNIT_NUMBER ]

/-- config.py: `MECHANIC_KEYWORDS` (inclusion vocabulary). -/
def MECHANIC_KEYWORDS : List Str :=
  [ ("invoice").toList, ("repair").toList, ("mechanic").toList, ("service").toList
  , ("maintenance").toList, ("preventive maintenance").toList, ("pm service").toList
  , ("tow").toList, ("towing").toList, ("roadside").toList, ("breakdown").toList
  , ("recovery").toList
  , ("oil change").toList, ("lube").toList, ("lubricant").toList, ("fluid").toList
  , ("coolant").toList, ("antifreeze").toList, ("def").toList
  , ("diesel exhaust fluid").toList
  , ("parts").toList, ("brake").toList, ("tire").toList, ("battery").toList
  , ("filter").toList, ("belt").toList, ("hose").toList, ("alternator").toList
  , ("starter").toList, ("transmission").toList, ("engine").toList
  , ("exhaust").toList, ("dpf").toList, ("egr").toList, ("turbo").toList
  , ("suspension").toList, ("steering").toList, ("axle").toList, ("wheel").toList
  , ("bearing").toList
  , ("labor").toList, ("labour").toList, ("diagnostic").toList
  , ("inspection").toList, ("dot inspection").toList, ("annual inspection").toList
  , ("truck shop").toList, ("truck repair").toList, ("diesel repair").toList
  , ("freightliner").toList, ("peterbilt").toList, ("kenworth").toList
  , ("volvo").toList, ("international").toList, ("mack").toList
  , ("ta petro").toList, ("loves").toList, ("pilot").toList, ("speedco").toList
  , ("rush truck").toList ]

/-- config.py: `EXCLUDE_KEYWORDS` (exclusion vocabulary). -/
def EXCLUDE_KEYWORDS : List Str :=
  [ ("rate confirmation").toList, ("rate con").toList, ("ratecon").toList
  , ("rate sheet").toList, ("load confirmation").toList, ("load tender").toList
  , ("dispatch").toList, ("broker").toList, ("freight").toList
  , ("shipment").toList, ("pickup").toList, ("delivery").toList
  , ("bol").toList, ("bill of lading").toList, ("pod").toList
  , ("proof of delivery").toList, ("lumper").toList, ("detention").toList
  , ("accessorial").toList
  , ("insurance policy").toList, ("certificate of insurance").toList
  , ("ifta").toList, ("2290").toList, ("registration renewal").toList
  , ("fuel discount report").toList, ("rxo fuel discount").toList
  , ("fuel receipt").toList, ("comdata").toList, ("efs").toList
  , ("tcheck").toList, ("pilot flying j").toList, ("pricing - pilot").toList
  , ("settlement").toList, ("pay stub").toList, ("payroll").toList
  , ("direct deposit").toList, ("1099").toList, ("w2").toList
  , ("zelle").toList, ("payment has been sent").toList ]

/-- config.py: `EXCLUDE_SENDERS` (sender blocklist). -/
def EXCLUDE_SENDERS : List Str :=
  [ ("no-reply@dat.com").toList
  , ("no-reply@truckstop.com").toList
  , ("notifications@keeptruckin.com").toList
  , ("notifications@motive.com").toList
  , ("noreply@uber.com").toList ]

/-! ## Classifier vocabulary (`InvoiceClassifier.__init__`, scanner.py 93-97):
all four lists are lowered once at construction. -/

/-- `self.mechanic_keywords = [kw.lower() for kw in MECHANIC_KEYWORDS]`. -/
def mechanic_keywords : List Str := MECHANIC_KEYWORDS.map lower

/-- `self.exclude_keywords = [kw.lower() for kw in EXCLUDE_KEYWORDS]`. -/
def exclude_keywords : List Str := EXCLUDE_KEYWORDS.map lower

/-- `self.search_terms = [term.lower() for term in SEARCH_TERMS]`. -/
def search_terms : List Str := SEARCH_TERMS.map lower

/-- `self.exclude_senders = [s.lower() for s in EXCLUDE_SENDERS]`. -/
def exclude_senders : List Str := EXCLUDE_SENDERS.map lower

/-! ## Rationale strings built by the classifier -/

/-- Decimal rendering of a natural number. -/
def natStr (n : Nat) : Str := Nat.toDigits 10 n

/-- scanner.py 129: `f"Excluded sender: \x7bexcluded_sender\x7d"`. -/
def excludedSenderMsg (s : Str) : Str := ("Excluded sender: ").toList ++ s

/-- scanner.py 136: `"Rate confirmation detected"`. -/
def rateConfMsg : Str := ("Rate confirmation detected").toList

/-- scanner.py 143: the two-count exclusion rationale. -/
def moreExclusionMsg (e m : Nat) : Str :=
  ("More exclusion signals (").toList ++ natStr e
    ++ (") than mechanic signals (").toList ++ natStr m ++ (")").toList

/-- scanner.py 180: `"No truck identifier found (574, VIN, etc.)"`. -/
def noIdMsg : Str := ("No truck identifier found (574, VIN, etc.)").toList

/-- A single-quote character, for Python list repr. -/
def sq : Str := [Char.ofNat 39]

/-- Python `repr` of a plain string (as interpolated into an f-string). -/
def pyStrRepr (s : Str) : Str := sq ++ s ++ sq

/-- Python `repr` of a list of strings. -/
def pyListRepr (xs : List Str) : Str :=
  ("[").toList ++ List.intercalate ((", ").toList) (xs.map pyStrRepr) ++ ("]").toList

/-- scanner.py 188: rationale when an identifier is present but no keyword. -/
def foundIdNoKwMsg (ids : List Str) : Str :=
  ("Found truck ID (").toList ++ pyListRepr ids ++ (") but no mechanic keywords").toList

/-- scanner.py 229: acceptance rationale, confidence rendered as a percent. -/
def detectedMsg (c : Nat) : Str :=
  ("Mechanic invoice detected (confidence: ").toList ++ natStr c ++ ("%)").toList

/-- scanner.py 231: below-threshold rationale. -/
def lowConfMsg (c : Nat) : Str :=
  ("Low confidence (").toList ++ natStr c ++ ("%) - not enough signals").toList

/-! ## `InvoiceClassifier.should_exclude` (scanner.py 121-145) -/

/-- Number of exclusion keywords contained in the text
(scanner.py 138: `sum(1 for kw in self.exclude_keywords if kw in text_lower)`). -/
def excludeCount (text_lower : Str) : Nat :=
  exclude_keywords.countP (fun kw => isSubstr kw text_lower)

/-- Number of inclusion (mechanic) keywords contained in the text
(scanner.py 139). -/
def mechanicCount (text_lower : Str) : Nat :=
  mechanic_keywords.countP (fun kw => isSubstr kw text_lower)

/-- scanner.py 135: a keyword is a hard-veto rate-confirmation phrase when it
contains both substrings. -/
def vetoKw (kw : Str) : Bool :=
  isSubstr (("rate").toList) kw && isSubstr (("confirm").toList) kw

/-- The `for keyword in self.exclude_keywords` loop of scanner.py 132-143:
returns the rationale of the first early `return True`, if any.  On a matched
keyword that neither is a rate-confirmation phrase nor wins the count
comparison, the Python loop falls through to the next keyword. -/
def excludeKeywordLoop (text_lower : Str) : List Str → Option Str
  | [] => none
  | kw :: rest =>
    if isSubstr kw text_lower then
      if vetoKw kw then some rateConfMsg
      else if excludeCount text_lower > mechanicCount text_lower then
        some (moreExclusionMsg (excludeCount text_lower) (mechanicCount text_lower))
      else excludeKeywordLoop text_lower rest
    else excludeKeywordLoop text_lower rest

/-- scanner.py 121-145: `should_exclude(text, sender)`; sender blocklist is
checked first, then the exclusion-keyword loop. -/
def should_exclude (text sender : Str) : Bool × Str :=
  let text_lower := lower text
  let sender_lower := lower sender
  match exclude_senders.find? (fun s => isSubstr s sender_lower) with
  | some s => (true, excludedSenderMsg s)
  | none =>
    match excludeKeywordLoop text_lower exclude_keywords with
    | some msg => (true, msg)
    | none => (false, [])

/-! ## Identifier and keyword detection (scanner.py 99-119) -/

/-- scanner.py 99-108: `contains_truck_identifier`; collects every matching
(already lowered) search term. -/
def contains_truck_identifier (text : Str) : Bool × List Str :=
  let text_lower := lower text
  let found_terms := search_terms.filter (fun term => isSubstr (lower term) text_lower)
  (!found_terms.isEmpty, found_terms)

/-- scanner.py 110-119: `is_mechanic_related`; collects every matching
inclusion keyword. -/
def is_mechanic_related (text : Str) : Bool × List Str :=
  let text_lower := lower text
  let found_keywords := mechanic_keywords.filter (fun kw => isSubstr kw text_lower)
  (!found_keywords.isEmpty, found_keywords)

/-! ## Confidence scoring (scanner.py 191-223), in hundredths -/

/-- Rank of the longest VIN fragment contained in the lowered text; the four
fragments form a suffix chain, so the elif chain of scanner.py 195-202 finds
the longest one.  4 = full VIN, 3 = last 8, 2 = last 6, 1 = last 4, 0 = none. -/
def vinRank (text_lower : Str) : Nat :=
  if isSubstr (lower FULL_VIN) text_lower then 4
  else if isSubstr (lower VIN_LAST_8) text_lower then 3
  else if isSubstr (lower VIN_LAST_6) text_lower then 2
  else if isSubstr (lower VIN_LAST_4) text_lower then 1
  else 0

/-- Points of each VIN rank: 0.40 / 0.35 / 0.25 / 0.15 in hundredths
(scanner.py 195-202).  `vinRank` only produces 0-4. -/
def vinPoints (r : Nat) : Nat :=
  if 4 ≤ r then 40 else if r = 3 then 35 else if r = 2 then 25
  else if r = 1 then 15 else 0

/-- VIN contribution to the confidence (scanner.py 194-202). -/
def vinScore (text_lower : Str) : Nat := vinPoints (vinRank text_lower)

/-- scanner.py 205: `f"unit \x7bUNIT_NUMBER\x7d".lower()`. -/
def unitPhrase : Str := ("unit ").toList ++ UNIT_NUMBER

/-- Unit-number contribution (scanner.py 204-208): the labeled phrase is
checked case-insensitively, the bare `UNIT_NUMBER in full_text` check is a
plain (case-sensitive) substring test on the unlowered text. -/
def unitScore (full_text text_lower : Str) : Nat :=
  if isSubstr (lower unitPhrase) text_lower then 20
  else if isSubstr UNIT_NUMBER full_text then 10
  else 0

/-- scanner.py 211: `min(len(found_keywords) * 0.1, 0.4)` in hundredths. -/
def keywordScore (n : Nat) : Nat := min (n * 10) 40

/-- scanner.py 215: `any(name.lower().endswith(".pdf") for name in attachment_names)`. -/
def hasPdfAttachment (attachment_names : List Str) : Bool :=
  attachment_names.any (fun name => ((".pdf").toList).isSuffixOf (lower name))

/-- The additive confidence sum of scanner.py 192-223, clamped at 1.00;
arguments: VIN contribution, unit contribution, number of matched inclusion
keywords, PDF-attachment flag, invoice-in-subject flag. -/
def scoreOf (v u numKw : Nat) (pdf inv : Bool) : Nat :=
  min (v + u + keywordScore numKw + (if pdf then 10 else 0) + (if inv then 15 else 0)) 100

/-- The confidence value computed at step 4 of `classify`
(scanner.py 191-223), in hundredths. -/
def rawConfidence (subject full_text : Str) (attachment_names : List Str)
    (numKw : Nat) : Nat :=
  let text_lower := lower full_text
  scoreOf (vinScore text_lower) (unitScore full_text text_lower) numKw
    (hasPdfAttachment attachment_names)
    (isSubstr (("invoice").toList) (lower subject))

/-! ## `InvoiceClassifier.classify` (scanner.py 147-233) -/

/-- The result dict of `classify` (scanner.py 161-167). -/
structure Decision where
  is_mechanic_invoice : Bool
  confidence : Nat
  reason : Str
  found_identifiers : List Str
  found_keywords : List Str
deriving DecidableEq

/-- scanner.py 159: `full_text = f"\x7bsubject\x7d \x7bbody\x7d \x7b' '.join(attachment_names)\x7d"`. -/
def fullTextOf (subject body : Str) (attachment_names : List Str) : Str :=
  subject ++ (" ").toList ++ body ++ (" ").toList
    ++ List.intercalate ((" ").toList) attachment_names

/-- Steps 2-6 of `classify` (scanner.py 175-233): identifier check, keyword
check, confidence scoring and threshold.  Factored out of `classify` so that
the post-exclusion behaviour can be named. -/
def classifySteps2to6 (subject full_text : Str) (attachment_names : List Str) : Decision :=
  let r2 := contains_truck_identifier full_text
  if !r2.1 then
    { is_mechanic_invoice := false, confidence := 0, reason := noIdMsg
    , found_identifiers := r2.2, found_keywords := [] }
  else
    let r3 := is_mechanic_related full_text
    if !r3.1 then
      { is_mechanic_invoice := false, confidence := 0
      , reason := foundIdNoKwMsg r2.2
      , found_identifiers := r2.2, found_keywords := r3.2 }
    else
      let confidence := rawConfidence subject full_text attachment_names r3.2.length
      if 30 ≤ confidence then
        { is_mechanic_invoice := true, confidence := confidence
        , reason := detectedMsg confidence
        , found_identifiers := r2.2, found_keywords := r3.2 }
      else
        { is_mechanic_invoice := false, confidence := 0
        , reason := lowConfMsg confidence
        , found_identifiers := r2.2, found_keywords := r3.2 }

/-- scanner.py 147-233: `classify(subject, body, sender, attachment_names)`. -/
def classify (subject body sender : Str) (attachment_names : List Str) : Decision :=
  let full_text := fullTextOf subject body attachment_names
  let se := should_exclude full_text sender
  if se.1 then
    { is_mechanic_invoice := false, confidence := 0
    , reason := ("EXCLUDED: ").toList ++ se.2
    , found_identifiers := [], found_keywords := [] }
  else classifySteps2to6 subject full_text attachment_names

/-- The confidence score actually computed by `classify`: `none` when an
early return fires before step 4 (scanner.py 169-189), otherwise the step-4
value (scanner.py 191-223). -/
def computedConfidence (subject body sender : Str) (attachment_names : List Str) : Option Nat :=
  let full_text := fullTextOf subject body attachment_names
  if (should_exclude full_text sender).1 then none
  else if !(contains_truck_identifier full_text).1 then none
  else
    let r3 := is_mechanic_related full_text
    if !r3.1 then none
    else some (rawConfidence subject full_text attachment_names r3.2.length)

/-! ## The unit-number rule as the spec words it (for claim C6) -/

/-- Modelled from the spec: the whitespace-delimited tokens of a text, for
the phrase "present as its own token".  (The source has no tokenizer; all of
its comparisons are substring containment.) -/
def tokensOf (s : Str) : List Str :=
  (s.splitOnP (fun c => c.isWhitespace)).filter (fun t => !t.isEmpty)

/-- Modelled from the spec: the needle occurs in the text as its own
whitespace-delimited token. -/
def presentAsOwnToken (needle text : Str) : Bool :=
  (tokensOf text).contains needle

/-- Modelled from the spec: the unit-number contribution as the claim words
it — +0.20 for the labeled phrase, else +0.10 only when the bare primary
identifier is present as its own token. -/
def claimedUnitScore (full_text text_lower : Str) : Nat :=
  if isSubstr (lower unitPhrase) text_lower then 20
  else if presentAsOwnToken UNIT_NUMBER full_text then 10
  else 0

/-! ## `GmailMechanicScanner.download_attachment` (scanner.py 378-431) -/

/-- Attachment content bytes. -/
abbrev Bytes := List Nat

/-- The message date once parsed (scanner.py 397-404; `datetime.strptime` is
Python standard-library code — only the fields used by the two `strftime`
calls are modelled). -/
structure DateObj where
  year : Nat
  month : Nat
  day : Nat
deriving DecidableEq

/-- scanner.py 410: `re.sub(r"[^\w\s-]", "", subject)[:50]` — keep word
characters (ASCII model: alphanumeric or underscore), whitespace and hyphens,
then truncate to 50 characters. -/
def sanitizeSubject (subject : Str) : Str :=
  (subject.filter
    (fun c => c.isAlphanum || c = ('_' : Char) || c.isWhitespace || c = ('-' : Char))).take 50

/-- Helper for `collapseWs`: the flag records whether the previous character
was whitespace (so a run yields a single underscore). -/
def collapseWsAux : Bool → Str → Str
  | _, [] => []
  | prevWs, c :: rest =>
    if c.isWhitespace then
      if prevWs then collapseWsAux true rest
      else ('_' : Char) :: collapseWsAux true rest
    else c :: collapseWsAux false rest

/-- scanner.py 417: `re.sub(r"\s+", "_", filename)` — each maximal whitespace
run becomes one underscore. -/
def collapseWs (s : Str) : Str := collapseWsAux false s

/-- Left-pad a digit string with zeros to width `k` (strftime zero padding). -/
def padZeros (k : Nat) (s : Str) : Str := List.replicate (k - s.length) ('0' : Char) ++ s

/-- `date_obj.strftime("%Y-%m")` (scanner.py 406). -/
def fmtYM (d : DateObj) : Str :=
  padZeros 4 (natStr d.year) ++ ("-").toList ++ padZeros 2 (natStr d.month)

/-- `date_obj.strftime("%Y%m%d")` (scanner.py 416). -/
def fmtYMD (d : DateObj) : Str :=
  padZeros 4 (natStr d.year) ++ padZeros 2 (natStr d.month) ++ padZeros 2 (natStr d.day)

/-- Destination path, relative to the download root (scanner.py 406-419):
month folder, then `YYYYMMDD_safeSubject_fingerprint_originalName` with
whitespace collapsed to underscores.  `fp` models
`hashlib.md5(file_data).hexdigest()[:8]` (Python standard library, outside
src/): an arbitrary deterministic fingerprint of the bytes. -/
def destPath (fp : Bytes → Str) (date_obj : DateObj) (subject original_name : Str)
    (file_data : Bytes) : Str :=
  let safe_subject := sanitizeSubject subject
  let file_hash := fp file_data
  let filename := collapseWs (fmtYMD date_obj ++ ("_").toList ++ safe_subject
    ++ ("_").toList ++ file_hash ++ ("_").toList ++ original_name)
  fmtYM date_obj ++ ("/").toList ++ filename

/-- The archive directory: stored files as (path, contents) pairs. -/
abbrev FS := List (Str × Bytes)

/-- `filepath.exists()` (scanner.py 422). -/
def FS.existsPath (fs : FS) (p : Str) : Bool := fs.any (fun e => decide (e.1 = p))

/-- Number of stored files at a given path. -/
def FS.countPath (fs : FS) (p : Str) : Nat := fs.countP (fun e => decide (e.1 = p))

/-- scanner.py 378-431: `download_attachment` from the point where the
attachment bytes have been fetched and the date parsed (the missing
`attachmentId` and HTTP-error early exits model external fetch failures and
are outside the archiving step).  If the computed path already exists the
file is not rewritten and the existing path is returned (scanner.py 421-424);
otherwise the bytes are written at the path (scanner.py 427-431). -/
def download_attachment (fp : Bytes → Str) (date_obj : DateObj)
    (subject original_name : Str) (file_data : Bytes) (fs : FS) : Str × FS :=
  let filepath := destPath fp date_obj subject original_name file_data
  if fs.existsPath filepath then (filepath, fs)
  else (filepath, (filepath, file_data) :: fs)

/-! ## `GmailMechanicScanner.scan` ledger skeleton (scanner.py 437-558) -/

/-- The message surface handed to the classifier (scanner.py 488-501). -/
structure Email where
  subject : Str
  body : Str
  sender : Str
  attachment_names : List Str

/-- State of one scan pass: the processed-ids ledger and the classification
decisions produced so far. -/
structure ScanState where
  ledger : List Str
  decisions : List (Str × Decision)

/-- One iteration of the message loop of `scan` (scanner.py 477-555),
ledger-relevant part: an id already in the ledger is skipped
(scanner.py 481-483); a failed detail fetch (`get_email_details` returning
nothing, scanner.py 488-490) leaves the state unchanged, in particular the id
is NOT marked processed; otherwise the message is classified
(scanner.py 496-501) and the id marked processed (scanner.py 555). -/
def scanStep (details : Str → Option Email) (st : ScanState) (msg_id : Str) : ScanState :=
  if msg_id ∈ st.ledger then st
  else
    match details msg_id with
    | none => st
    | some e =>
      { ledger := msg_id :: st.ledger
      , decisions :=
          st.decisions ++ [(msg_id, classify e.subject e.body e.sender e.attachment_names)] }

/-- One scan invocation over the candidate message list (scanner.py 437-558):
the ledger starts from the set loaded by `_load_processed_ids`, and the final
ledger is what `_save_processed_ids` persists (scanner.py 557-558). -/
def scanRun (details : Str → Option Email) (init : List Str) (msgs : List Str) : ScanState :=
  msgs.foldl (scanStep details) { ledger := init, decisions := [] }

/-- The ids for which a classification decision was produced in a scan. -/
def decisionIds (st : ScanState) : List Str := st.decisions.map Prod.fst

/-! # Theorems -/

/-- If some exclusion keyword matched by the text is a rate-confirmation
phrase, the keyword loop returns an early rationale: the loop never returns
`False` from inside, so it eventually reaches the vetoing keyword. -/
theorem excludeKeywordLoop_isSome_of_veto (tl : Str) :
    ∀ L : List Str, (∃ kw ∈ L, isSubstr kw tl = true ∧ vetoKw kw = true) →
      (excludeKeywordLoop tl L).isSome = true := by
  intro L
  induction L with
  | nil => rintro ⟨kw, hmem, -⟩; simp at hmem
  | cons a rest ih =>
    rintro ⟨kw, hmem, hsub, hveto⟩
    rcases List.mem_cons.mp hmem with rfl | hmem
    · simp [excludeKeywordLoop, hsub, hveto]
    · by_cases ha : isSubstr a tl = true
      · by_cases hv : vetoKw a = true
        · simp [excludeKeywordLoop, ha, hv]
        · by_cases hc : excludeCount tl > mechanicCount tl
          · simp [excludeKeywordLoop, ha, hv, hc]
          · simpa [excludeKeywordLoop, ha, hv, hc] using ih ⟨kw, hmem, hsub, hveto⟩
      · simpa [excludeKeywordLoop, ha] using ih ⟨kw, hmem, hsub, hveto⟩

/-- A matched rate-confirmation keyword forces `should_exclude` to return
`True`, whatever the sender check does. -/
theorem should_exclude_fst_of_veto (text sender : Str)
    (h : ∃ kw ∈ exclude_keywords, isSubstr kw (lower text) = true ∧ vetoKw kw = true) :
    (should_exclude text sender).1 = true := by
  unfold should_exclude
  cases hf : exclude_senders.find? (fun s => isSubstr s (lower sender)) with
  | some s => simp [hf]
  | none =>
    have hs := excludeKeywordLoop_isSome_of_veto (lower text) exclude_keywords h
    cases hl : excludeKeywordLoop (lower text) exclude_keywords with
    | some msg => simp [hf, hl]
    | none => rw [hl] at hs; simp at hs

/-- Claim C2: any input whose concatenated subject+body+attachment text
contains an exclusion term that itself contains both "rate" and "confirm" as
substrings is rejected by `classify`, regardless of every other signal — the
hard veto overrides the soft count comparison. -/
theorem rate_confirmation_hard_veto
    (subject body sender : Str) (attachment_names : List Str)
    (h : ∃ kw ∈ exclude_keywords,
        isSubstr kw (lower (fullTextOf subject body attachment_names)) = true ∧
        isSubstr (("rate").toList) kw = true ∧
        isSubstr (("confirm").toList) kw = true) :
    (classify subject body sender attachment_names).is_mechanic_invoice = false := by
  obtain ⟨kw, hmem, hsub, hr, hc⟩ := h
  have hveto : vetoKw kw = true := by
    simp only [vetoKw, Bool.and_eq_true]; exact ⟨hr, hc⟩
  have hse := should_exclude_fst_of_veto (fullTextOf subject body attachment_names)
    sender ⟨kw, hmem, hsub, hveto⟩
  unfold classify
  simp [hse]

/-- Witness for C2: the Scenario-B style message "Rate Confirmation #4471"
about Unit 574 is rejected despite many inclusion matches. -/
theorem rate_confirmation_hard_veto_witness :
    (classify (("Rate Confirmation #4471").toList)
      (("Unit 574 brake repair invoice tow").toList)
      (("broker@x.com").toList) []).is_mechanic_invoice = false :=
  rate_confirmation_hard_veto (("Rate Confirmation #4471").toList)
    (("Unit 574 brake repair invoice tow").toList)
    (("broker@x.com").toList) [] (by decide)

/-- Claim C3: a sender containing (case-insensitively) any excluded-sender
substring is rejected, whatever the subject, body, attachments or matches
are, and the rationale is the sender exclusion — the sender check runs before
every other rule. -/
theorem excluded_sender_rejects
    (subject body sender : Str) (attachment_names : List Str)
    (h : ∃ es ∈ exclude_senders, isSubstr es (lower sender) = true) :
    (classify subject body sender attachment_names).is_mechanic_invoice = false ∧
    ∃ es ∈ exclude_senders,
      (classify subject body sender attachment_names).reason =
        ("EXCLUDED: ").toList ++ excludedSenderMsg es := by
  have hsome : (exclude_senders.find? (fun es => isSubstr es (lower sender))).isSome = true :=
    List.find?_isSome.mpr h
  cases hf : exclude_senders.find? (fun es => isSubstr es (lower sender)) with
  | none => rw [hf] at hsome; simp at hsome
  | some es =>
    have hmem := List.mem_of_find?_eq_some hf
    simp only [classify, should_exclude]
    rw [hf]
    exact ⟨rfl, es, hmem, rfl⟩

/-- Witness for C3: a notification from the blocklisted load-board sender is
rejected even though the text is full of invoice signals. -/
theorem excluded_sender_rejects_witness :
    (classify (("Invoice Unit 574 brake repair").toList)
      (("3AKJHHDR7KSKE1598").toList)
      (("NO-REPLY@dat.com").toList) [("inv.pdf").toList]).is_mechanic_invoice = false :=
  (excluded_sender_rejects (("Invoice Unit 574 brake repair").toList)
    (("3AKJHHDR7KSKE1598").toList)
    (("NO-REPLY@dat.com").toList) [("inv.pdf").toList] (by decide)).1

/-- Claim C10 (implicit): every rejected decision carries `confidence = 0.0`
— including threshold rejections, where the internally computed score ends up
only in the reason string — and an accepted decision always carries a
confidence of at least the 0.30 threshold, hence non-zero. -/
theorem rejected_confidence_zero (subject body sender : Str) (attachment_names : List Str) :
    ((classify subject body sender attachment_names).is_mechanic_invoice = false →
      (classify subject body sender attachment_names).confidence = 0) ∧
    ((classify subject body sender attachment_names).is_mechanic_invoice = true →
      30 ≤ (classify subject body sender attachment_names).confidence) := by
  by_cases hse : (should_exclude (fullTextOf subject body attachment_names) sender).1 = true
  · simp [classify, hse]
  · have hse' := eq_false_of_ne_true hse
    by_cases h2 : (contains_truck_identifier (fullTextOf subject body attachment_names)).1 = true
    · by_cases h3 : (is_mechanic_related (fullTextOf subject body attachment_names)).1 = true
      · by_cases hc : 30 ≤ rawConfidence subject (fullTextOf subject body attachment_names)
            attachment_names (is_mechanic_related (fullTextOf subject body attachment_names)).2.length
        · simp [classify, classifySteps2to6, hse', h2, h3, hc]
        · simp [classify, classifySteps2to6, hse', h2, h3, hc]
      · simp [classify, classifySteps2to6, hse', h2, eq_false_of_ne_true h3]
    · simp [classify, classifySteps2to6, hse', eq_false_of_ne_true h2]

/-- Witness for C10: a message with an identifier and one keyword scores 25,
is rejected at the threshold, and its decision's confidence field is 0. -/
theorem rejected_confidence_zero_witness :
    (classify (("Brake").toList) (("1598").toList) (("shop@example.com").toList)
      []).confidence = 0 :=
  (rejected_confidence_zero (("Brake").toList) (("1598").toList)
    (("shop@example.com").toList) []).1 (by decide)

/-- When every exclusion keyword the text matches fails the rate-confirmation
test and the counts do not favour exclusion, the keyword loop falls through
to `False`. -/
theorem excludeKeywordLoop_eq_none (tl : Str)
    (hle : excludeCount tl ≤ mechanicCount tl) :
    ∀ L : List Str, (∀ kw ∈ L, isSubstr kw tl = true → vetoKw kw = false) →
      excludeKeywordLoop tl L = none := by
  intro L
  induction L with
  | nil => intro _; rfl
  | cons a rest ih =>
    intro hall
    have hnlt : ¬ (excludeCount tl > mechanicCount tl) := Nat.not_lt.mpr hle
    by_cases ha : isSubstr a tl = true
    · have hv := hall a (List.mem_cons_self a rest) ha
      simp only [excludeKeywordLoop, ha, if_true, hv, hnlt, if_false]
      exact ih (fun kw hm => hall kw (List.mem_cons_of_mem _ hm))
    · simp only [excludeKeywordLoop, eq_false_of_ne_true ha]
      exact ih (fun kw hm => hall kw (List.mem_cons_of_mem _ hm))

/-- When some exclusion keyword matches, none of the matched ones is a
rate-confirmation phrase, and the counts favour exclusion, the loop stops at
the first matched keyword with the two-count rationale. -/
theorem excludeKeywordLoop_eq_some (tl : Str)
    (hgt : excludeCount tl > mechanicCount tl) :
    ∀ L : List Str, (∀ kw ∈ L, isSubstr kw tl = true → vetoKw kw = false) →
      (∃ kw ∈ L, isSubstr kw tl = true) →
      excludeKeywordLoop tl L =
        some (moreExclusionMsg (excludeCount tl) (mechanicCount tl)) := by
  intro L
  induction L with
  | nil => rintro _ ⟨kw, hmem, -⟩; simp at hmem
  | cons a rest ih =>
    rintro hall ⟨kw, hmem, hsub⟩
    by_cases ha : isSubstr a tl = true
    · have hv := hall a (List.mem_cons_self a rest) ha
      simp only [excludeKeywordLoop, ha, if_true, hv, hgt, if_false]
      rfl
    · have hkw : kw ∈ rest := by
        rcases List.mem_cons.mp hmem with rfl | hm
        · exact absurd hsub ha
        · exact hm
      simp only [excludeKeywordLoop, eq_false_of_ne_true ha]
      exact ih (fun kw hm => hall kw (List.mem_cons_of_mem _ hm)) ⟨kw, hkw, hsub⟩

/-- Claim C4: with a non-excluded sender, at least one matched exclusion term
and no matched rate-confirmation term, `should_exclude` answers `True` iff
the whole-text exclusion-match count strictly exceeds the inclusion-match
count; when it does not, `classify` proceeds to the identifier check (steps
2-6). -/
theorem soft_exclusion_count_rule
    (subject body sender : Str) (attachment_names : List Str)
    (hsender : ∀ es ∈ exclude_senders, isSubstr es (lower sender) = false)
    (hmatch : ∃ kw ∈ exclude_keywords,
        isSubstr kw (lower (fullTextOf subject body attachment_names)) = true)
    (hnoveto : ∀ kw ∈ exclude_keywords,
        isSubstr kw (lower (fullTextOf subject body attachment_names)) = true →
        vetoKw kw = false) :
    ((should_exclude (fullTextOf subject body attachment_names) sender).1 =
      decide (mechanicCount (lower (fullTextOf subject body attachment_names)) <
              excludeCount (lower (fullTextOf subject body attachment_names)))) ∧
    (excludeCount (lower (fullTextOf subject body attachment_names)) ≤
        mechanicCount (lower (fullTextOf subject body attachment_names)) →
      classify subject body sender attachment_names =
        classifySteps2to6 subject (fullTextOf subject body attachment_names)
          attachment_names) := by
  have hf : exclude_senders.find? (fun s => isSubstr s (lower sender)) = none :=
    List.find?_eq_none.mpr (fun es hes => by rw [hsender es hes]; simp)
  set tl := lower (fullTextOf subject body attachment_names) with htl
  by_cases hgt : mechanicCount tl < excludeCount tl
  · have hl := excludeKeywordLoop_eq_some tl hgt exclude_keywords hnoveto hmatch
    constructor
    · simp only [should_exclude]
      rw [hf, hl]
      simp [hgt]
    · intro hle; exact absurd hgt (Nat.not_lt.mpr hle)
  · have hle : excludeCount tl ≤ mechanicCount tl := Nat.not_lt.mp hgt
    have hl := excludeKeywordLoop_eq_none tl hle exclude_keywords hnoveto
    have hse : should_exclude (fullTextOf subject body attachment_names) sender = (false, []) := by
      simp only [should_exclude]
      rw [hf, hl]
    constructor
    · rw [hse]; simp [hgt]
    · intro _
      simp only [classify]
      rw [hse]
      rfl

/-- Witness for C4: "dispatch" matches one exclusion term against two
inclusion terms, so the message proceeds to the identifier check. -/
theorem soft_exclusion_count_rule_witness :
    classify (("Dispatch note").toList) (("574 brake repair").toList)
        (("ops@example.com").toList) [] =
      classifySteps2to6 (("Dispatch note").toList)
        (fullTextOf (("Dispatch note").toList) (("574 brake repair").toList) [])
        [] :=
  (soft_exclusion_count_rule (("Dispatch note").toList) (("574 brake repair").toList)
    (("ops@example.com").toList) [] (by decide) (by decide) (by decide)).2 (by decide)

/-- Claim C5: past the sender and exclusion checks, a text containing none of
the identifier variants is rejected with the fixed "no truck identifier"
rationale and an empty identifier list, whatever inclusion terms it has. -/
theorem no_identifier_rejects
    (subject body sender : Str) (attachment_names : List Str)
    (hse : (should_exclude (fullTextOf subject body attachment_names) sender).1 = false)
    (hid : ∀ term ∈ search_terms,
        isSubstr (lower term) (lower (fullTextOf subject body attachment_names)) = false) :
    classify subject body sender attachment_names =
      { is_mechanic_invoice := false, confidence := 0, reason := noIdMsg
      , found_identifiers := [], found_keywords := [] } := by
  have hfilter : search_terms.filter
      (fun term => isSubstr (lower term) (lower (fullTextOf subject body attachment_names))) = [] :=
    List.filter_eq_nil_iff.mpr (fun t ht => by rw [hid t ht]; simp)
  simp only [classify, hse, Bool.false_eq_true, if_false, classifySteps2to6,
    contains_truck_identifier, hfilter]
  rfl

/-- Witness for C5: an unrelated newsletter with no identifier is rejected
with the no-identifier rationale. -/
theorem no_identifier_rejects_witness :
    classify (("Weekly Newsletter").toList) (("great deals on tires").toList)
        (("news@example.com").toList) [] =
      { is_mechanic_invoice := false, confidence := 0, reason := noIdMsg
      , found_identifiers := [], found_keywords := [] } :=
  no_identifier_rejects (("Weekly Newsletter").toList)
    (("great deals on tires").toList) (("news@example.com").toList) []
    (by decide) (by decide)

/-- Claim C1: `classify` accepts exactly when a confidence score was computed
(no earlier rule rejected the message) and that score is at least 0.30; and
Scenario D — subject "Brake repair", body holding only the 4-character VIN
suffix, two inclusion matches, no attachment, no "invoice" in the subject, no
exclusion — scores 0.15 + 0.20 = 0.35 and is accepted. -/
theorem threshold_accept_iff :
    (∀ (subject body sender : Str) (attachment_names : List Str),
      (classify subject body sender attachment_names).is_mechanic_invoice = true ↔
        ∃ c, computedConfidence subject body sender attachment_names = some c ∧ 30 ≤ c) ∧
    (classify (("Brake repair").toList) (("1598").toList)
      (("shop@example.com").toList) []).is_mechanic_invoice = true ∧
    (classify (("Brake repair").toList) (("1598").toList)
      (("shop@example.com").toList) []).confidence = 35 ∧
    computedConfidence (("Brake repair").toList) (("1598").toList)
      (("shop@example.com").toList) [] = some 35 := by
  refine ⟨?_, by decide, by decide, by decide⟩
  intro subject body sender attachment_names
  by_cases hse : (should_exclude (fullTextOf subject body attachment_names) sender).1 = true
  · simp [classify, computedConfidence, hse]
  · have hse' := eq_false_of_ne_true hse
    by_cases h2 : (contains_truck_identifier (fullTextOf subject body attachment_names)).1 = true
    · by_cases h3 : (is_mechanic_related (fullTextOf subject body attachment_names)).1 = true
      · by_cases hc : 30 ≤ rawConfidence subject (fullTextOf subject body attachment_names)
            attachment_names (is_mechanic_related (fullTextOf subject body attachment_names)).2.length
        · simp [classify, computedConfidence, classifySteps2to6, hse', h2, h3, hc]
        · simp [classify, computedConfidence, classifySteps2to6, hse', h2, h3, hc]
      · simp [classify, computedConfidence, classifySteps2to6, hse', h2, eq_false_of_ne_true h3]
    · simp [classify, computedConfidence, classifySteps2to6, hse', eq_false_of_ne_true h2]

/-- Counterexample for C6: in the full text "Brake 15746 " (the concatenation
classify builds from subject "Brake" and body "15746") the primary identifier
"574" occurs only inside the number 15746, not as its own token, yet the code
awards the +0.10 bare-identifier contribution; under the claim's own-token
wording the contribution would be 0. -/
theorem unit_token_counterexample :
    unitScore (("Brake 15746 ").toList) (lower (("Brake 15746 ").toList)) = 10 ∧
    claimedUnitScore (("Brake 15746 ").toList) (lower (("Brake 15746 ").toList)) = 0 ∧
    (("Brake 15746 ").toList) =
      fullTextOf (("Brake").toList) (("15746").toList) [] := by
  decide

/-- Claim C6 as amended: the labeled phrase "unit 574" contained
case-insensitively in the text contributes +0.20; otherwise the bare primary
identifier contained anywhere as a substring (not necessarily as its own
token) contributes +0.10; otherwise the contribution is 0 — so the two
contributions are mutually exclusive and no input receives both. -/
theorem unit_score_amended (full_text text_lower : Str) :
    (isSubstr (lower unitPhrase) text_lower = true →
      unitScore full_text text_lower = 20) ∧
    (isSubstr (lower unitPhrase) text_lower = false →
      isSubstr UNIT_NUMBER full_text = true → unitScore full_text text_lower = 10) ∧
    (isSubstr (lower unitPhrase) text_lower = false →
      isSubstr UNIT_NUMBER full_text = false → unitScore full_text text_lower = 0) ∧
    (unitScore full_text text_lower = 20 ∨ unitScore full_text text_lower = 10 ∨
      unitScore full_text text_lower = 0) := by
  refine ⟨fun h => by simp [unitScore, h], fun h h10 => by simp [unitScore, h, h10],
    fun h h10 => by simp [unitScore, h, h10], ?_⟩
  unfold unitScore
  split
  · exact Or.inl rfl
  · split
    · exact Or.inr (Or.inl rfl)
    · exact Or.inr (Or.inr rfl)

/-- Witness for the amended C6: "Unit 574 brake" gets the labeled +0.20, and
"inv 574 brake" without the phrase gets the bare +0.10. -/
theorem unit_score_amended_witness :
    unitScore (("Unit 574 brake").toList) (lower (("Unit 574 brake").toList)) = 20 ∧
    unitScore (("inv 574 brake").toList) (lower (("inv 574 brake").toList)) = 10 :=
  ⟨(unit_score_amended (("Unit 574 brake").toList)
      (lower (("Unit 574 brake").toList))).1 (by decide),
   (unit_score_amended (("inv 574 brake").toList)
      (lower (("inv 574 brake").toList))).2.1 (by decide) (by decide)⟩

/-- Claim C7: the confidence computed at step 4 is monotonically
non-decreasing in the rank of the longest VIN fragment found, in the number
of distinct matched inclusion terms (each +0.10 up to the 0.40 cap), in the
presence of a PDF attachment, and in the presence of "invoice" in the
subject; and it is clamped to at most 1.00. -/
theorem confidence_monotone :
    (∀ t u : Str, vinRank t ≤ vinRank u → vinScore t ≤ vinScore u) ∧
    (∀ (v u k j : Nat) (p i : Bool), k ≤ j → scoreOf v u k p i ≤ scoreOf v u j p i) ∧
    (∀ (v u k : Nat) (i : Bool), scoreOf v u k false i ≤ scoreOf v u k true i) ∧
    (∀ (v u k : Nat) (p : Bool), scoreOf v u k p false ≤ scoreOf v u k p true) ∧
    (∀ (v u k : Nat) (p i : Bool), scoreOf v u k p i ≤ 100) := by
  have hpts : ∀ r s : Nat, r ≤ s → vinPoints r ≤ vinPoints s := by
    intro r s h
    unfold vinPoints
    split_ifs <;> omega
  refine ⟨fun t u h => hpts _ _ h, ?_, ?_, ?_, ?_⟩
  · intro v u k j p i hkj
    have : keywordScore k ≤ keywordScore j := by
      unfold keywordScore; omega
    unfold scoreOf
    omega
  · intro v u k i
    simp only [scoreOf, if_true]
    split_ifs <;> omega
  · intro v u k p
    simp only [scoreOf, if_true]
    split_ifs <;> omega
  · intro v u k p i
    unfold scoreOf
    exact Nat.min_le_right _ _

/-- Witness for C7: concrete instances of each monotonicity clause. -/
theorem confidence_monotone_witness :
    vinScore (lower (("KE1598").toList)) ≤ vinScore (lower (("KSKE1598").toList)) ∧
    scoreOf 15 0 1 false false ≤ scoreOf 15 0 2 false false :=
  ⟨confidence_monotone.1 (lower (("KE1598").toList)) (lower (("KSKE1598").toList))
      (by decide),
   confidence_monotone.2.1 15 0 1 2 false false (by decide)⟩

/-- Claim C8: for a fixed parsed date, subject, original filename and
attachment bytes, `download_attachment` always returns the deterministic path
`destPath`; calling it a second time with identical inputs finds the file
already present, writes nothing (the directory is unchanged) and returns the
same path; and when the path was initially absent, exactly one file is stored
at it. -/
theorem archive_idempotent (fp : Bytes → Str) (d : DateObj)
    (subject original_name : Str) (file_data : Bytes) (fs : FS) :
    (download_attachment fp d subject original_name file_data fs).1 =
      destPath fp d subject original_name file_data ∧
    download_attachment fp d subject original_name file_data
        (download_attachment fp d subject original_name file_data fs).2 =
      ((download_attachment fp d subject original_name file_data fs).1,
       (download_attachment fp d subject original_name file_data fs).2) ∧
    FS.existsPath (download_attachment fp d subject original_name file_data fs).2
      (destPath fp d subject original_name file_data) = true ∧
    (fs.existsPath (destPath fp d subject original_name file_data) = false →
      FS.countPath (download_attachment fp d subject original_name file_data fs).2
        (destPath fp d subject original_name file_data) = 1) := by
  set p := destPath fp d subject original_name file_data with hp
  by_cases he : fs.existsPath p = true
  · refine ⟨by simp [download_attachment, ← hp, he], ?_, ?_, ?_⟩
    · simp [download_attachment, ← hp, he]
    · simp [download_attachment, ← hp, he]
    · intro hfalse; rw [he] at hfalse; cases hfalse
  · have he' := eq_false_of_ne_true he
    have hfs1 : (download_attachment fp d subject original_name file_data fs).2 =
        (p, file_data) :: fs := by
      simp [download_attachment, ← hp, he']
    have hex : FS.existsPath ((p, file_data) :: fs) p = true := by
      simp [FS.existsPath]
    refine ⟨by simp [download_attachment, ← hp, he'], ?_, ?_, ?_⟩
    · rw [hfs1]
      simp [download_attachment, ← hp, he', hex]
    · rw [hfs1]; exact hex
    · intro _
      rw [hfs1]
      have hzero : FS.countPath fs p = 0 := by
        have := List.any_eq_false.mp he'
        simp only [FS.countPath]
        exact List.countP_eq_zero.mpr (fun e hmem => this e hmem)
      simp only [FS.countPath, List.countP_cons]
      have : FS.countPath fs p = 0 := hzero
      simp only [FS.countPath] at this
      rw [this]
      simp

/-- Witness for C8: archiving one attachment into an empty directory stores
exactly one file at the computed path. -/
theorem archive_idempotent_witness :
    FS.countPath
      (download_attachment (fun _ => ("abcd1234").toList) ⟨2024, 5, 17⟩
        (("Brake repair").toList) (("inv.pdf").toList) [1, 2, 3] []).2
      (destPath (fun _ => ("abcd1234").toList) ⟨2024, 5, 17⟩
        (("Brake repair").toList) (("inv.pdf").toList) [1, 2, 3]) = 1 :=
  (archive_idempotent (fun _ => ("abcd1234").toList) ⟨2024, 5, 17⟩
    (("Brake repair").toList) (("inv.pdf").toList) [1, 2, 3] []).2.2.2 (by decide)

/-- Membership in the ledger after folding the scan step: an id is in the
final ledger iff it was in the starting ledger or it occurs in the candidate
list with a successful detail fetch. -/
theorem scanFold_ledger_mem (details : Str → Option Email) :
    ∀ (msgs : List Str) (st : ScanState) (x : Str),
      (x ∈ (msgs.foldl (scanStep details) st).ledger ↔
        x ∈ st.ledger ∨ (x ∈ msgs ∧ (details x).isSome = true)) := by
  intro msgs
  induction msgs with
  | nil => intro st x; simp
  | cons m rest ih =>
    intro st x
    rw [List.foldl_cons, ih]
    by_cases hm : m ∈ st.ledger
    · rw [scanStep, if_pos hm]
      constructor
      · rintro (h | ⟨hr, hs⟩)
        · exact Or.inl h
        · exact Or.inr ⟨List.mem_cons_of_mem _ hr, hs⟩
      · rintro (h | ⟨hmr, hs⟩)
        · exact Or.inl h
        · rcases List.mem_cons.mp hmr with rfl | hr
          · exact Or.inl hm
          · exact Or.inr ⟨hr, hs⟩
    · rw [scanStep, if_neg hm]
      cases hd : details m with
      | none =>
        simp only []
        constructor
        · rintro (h | ⟨hr, hs⟩)
          · exact Or.inl h
          · exact Or.inr ⟨List.mem_cons_of_mem _ hr, hs⟩
        · rintro (h | ⟨hmr, hs⟩)
          · exact Or.inl h
          · rcases List.mem_cons.mp hmr with rfl | hr
            · rw [hd] at hs; cases hs
            · exact Or.inr ⟨hr, hs⟩
      | some e =>
        simp only [List.mem_cons]
        constructor
        · rintro (h | ⟨hr, hs⟩)
          · rcases h with rfl | h
            · exact Or.inr ⟨Or.inl rfl, by rw [hd]; rfl⟩
            · exact Or.inl h
          · exact Or.inr ⟨Or.inr hr, hs⟩
        · rintro (h | ⟨hmr, hs⟩)
          · exact Or.inl (Or.inr h)
          · rcases hmr with rfl | hr
            · exact Or.inl (Or.inl rfl)
            · exact Or.inr ⟨hr, hs⟩

/-- Decisions produced by folding the scan step: an id gains a decision iff
it already had one, or it occurs in the candidate list, its detail fetch
succeeds, and it was not already in the ledger. -/
theorem scanFold_decisions_mem (details : Str → Option Email) :
    ∀ (msgs : List Str) (st : ScanState) (x : Str),
      (x ∈ decisionIds (msgs.foldl (scanStep details) st) ↔
        x ∈ decisionIds st ∨
          (x ∈ msgs ∧ (details x).isSome = true ∧ x ∉ st.ledger)) := by
  intro msgs
  induction msgs with
  | nil => intro st x; simp
  | cons m rest ih =>
    intro st x
    rw [List.foldl_cons, ih]
    by_cases hm : m ∈ st.ledger
    · rw [scanStep, if_pos hm]
      constructor
      · rintro (h | ⟨hr, hs, hnl⟩)
        · exact Or.inl h
        · exact Or.inr ⟨List.mem_cons_of_mem _ hr, hs, hnl⟩
      · rintro (h | ⟨hmr, hs, hnl⟩)
        · exact Or.inl h
        · rcases List.mem_cons.mp hmr with rfl | hr
          · exact absurd hm hnl
          · exact Or.inr ⟨hr, hs, hnl⟩
    · rw [scanStep, if_neg hm]
      cases hd : details m with
      | none =>
        simp only []
        constructor
        · rintro (h | ⟨hr, hs, hnl⟩)
          · exact Or.inl h
          · exact Or.inr ⟨List.mem_cons_of_mem _ hr, hs, hnl⟩
        · rintro (h | ⟨hmr, hs, hnl⟩)
          · exact Or.inl h
          · rcases List.mem_cons.mp hmr with rfl | hr
            · rw [hd] at hs; cases hs
            · exact Or.inr ⟨hr, hs, hnl⟩
      | some e =>
        have hids : decisionIds
            { ledger := m :: st.ledger
            , decisions := st.decisions ++
                [(m, classify e.subject e.body e.sender e.attachment_names)] } =
            decisionIds st ++ [m] := by
          simp [decisionIds]
        rw [hids]
        constructor
        · rintro (h | ⟨hr, hs, hnl⟩)
          · rcases List.mem_append.mp h with h | h
            · exact Or.inl h
            · rcases List.mem_singleton.mp h with rfl
              exact Or.inr ⟨List.mem_cons_self _ _, by rw [hd]; rfl, hm⟩
          · have hnl' : x ∉ st.ledger := fun hx => hnl (List.mem_cons_of_mem _ hx)
            exact Or.inr ⟨List.mem_cons_of_mem _ hr, hs, hnl'⟩
        · rintro (h | ⟨hmr, hs, hnl⟩)
          · exact Or.inl (List.mem_append.mpr (Or.inl h))
          · rcases List.mem_cons.mp hmr with rfl | hr
            · exact Or.inl (List.mem_append.mpr (Or.inr (List.mem_singleton.mpr rfl)))
            · by_cases hxm : x = m
              · subst hxm
                exact Or.inl (List.mem_append.mpr (Or.inr (List.mem_singleton.mpr rfl)))
              · have : x ∉ m :: st.ledger := by
                  intro hx
                  rcases List.mem_cons.mp hx with h | h
                  · exact hxm h
                  · exact hnl h
                exact Or.inr ⟨hr, hs, this⟩

/-- Claim C9: across one scan, the ledger persisted at the end equals the set
loaded at the start united with exactly the ids for which a classification
decision was produced; an id already in the ledger gets no new decision; a
decision implies the id was a candidate whose detail fetch succeeded; and an
id whose detail fetch fails is in the final ledger only if it already was at
the start (so it is retried next scan). -/
theorem ledger_monotone_exact (details : Str → Option Email)
    (init msgs : List Str) (x : Str) :
    (x ∈ (scanRun details init msgs).ledger ↔
      x ∈ init ∨ x ∈ decisionIds (scanRun details init msgs)) ∧
    (x ∈ init → x ∉ decisionIds (scanRun details init msgs)) ∧
    (x ∈ decisionIds (scanRun details init msgs) →
      x ∈ msgs ∧ (details x).isSome = true) ∧
    (details x = none → (x ∈ (scanRun details init msgs).ledger ↔ x ∈ init)) := by
  have hled : x ∈ (scanRun details init msgs).ledger ↔
      x ∈ init ∨ (x ∈ msgs ∧ (details x).isSome = true) := by
    rw [scanRun, scanFold_ledger_mem details msgs { ledger := init, decisions := [] } x]
  have hdec : x ∈ decisionIds (scanRun details init msgs) ↔
      (x ∈ msgs ∧ (details x).isSome = true ∧ x ∉ init) := by
    rw [scanRun, scanFold_decisions_mem details msgs { ledger := init, decisions := [] } x]
    simp [decisionIds]
  refine ⟨?_, ?_, ?_, ?_⟩
  · rw [hled, hdec]
    by_cases hx : x ∈ init
    · simp [hx]
    · simp [hx]
  · intro hx
    rw [hdec]
    rintro ⟨-, -, hnl⟩
    exact hnl hx
  · intro hx
    rw [hdec] at hx
    exact ⟨hx.1, hx.2.1⟩
  · intro hnone
    rw [hled, hnone]
    simp

/-- Witness for C9: with a detail fetcher that always fails, a candidate id
ends up in the ledger only if it was already there at the start. -/
theorem ledger_monotone_exact_witness :
    (("m1").toList ∈ (scanRun (fun _ => none) [("m0").toList] [("m1").toList]).ledger ↔
      ("m1").toList ∈ [("m0").toList]) :=
  (ledger_monotone_exact (fun _ => none) [("m0").toList] [("m1").toList]
    (("m1").toList)).2.2.2 rfl

end Scanner
